import Mathlib

set_option maxHeartbeats 1000000

/-!
Shallow embedding of the WiFi AutoLogin MV3 service worker
(`src/unnamed/part_000`, a Chrome extension service worker).

Pure worker logic is translated into Lean functions.  Every interaction
with the browser environment (network probes, tab queries, tab creation,
script injection, the clock) is represented by an `Oracle` record whose
fields give the outcome of the corresponding call site for one
invocation, and the worker's mutable globals (lines 14-34 of the source)
are threaded as an explicit `WorkerState`.  JS exceptions at call sites
that the source does not catch locally are modelled with `Except`.
-/

/- ### Small helpers: JS `Set` and plain-object maps -/

/-- `Set.add` on a JS `Set` of strings, modelled as a duplicate-free list. -/
def setAddStr (s : List String) (x : String) : List String :=
  if x ∈ s then s else x :: s

/-- `Set.delete` on a JS `Set` of strings. -/
def setDelStr (s : List String) (x : String) : List String :=
  s.filter (fun y => y != x)

/-- `Set.add` on a JS `Set` of numbers (`createdTabIds`, line 33). -/
def setAddNat (s : List Nat) (x : Nat) : List Nat :=
  if x ∈ s then s else x :: s

/-- `Set.delete` on a JS `Set` of numbers. -/
def setDelNat (s : List Nat) (x : Nat) : List Nat :=
  s.filter (fun y => y != x)

/-- `m[k] || 0` on a JS plain object used as a counter map
(`failedAttemptsByOrigin`, `lastSuccessNotifiedAt`). -/
def getCount : List (String × Nat) → String → Nat
  | [], _ => 0
  | (k, v) :: rest, key => if k = key then v else getCount rest key

/-- `m[k] = v` on a JS plain object: the newest binding shadows older ones. -/
def setCount (m : List (String × Nat)) (key : String) (v : Nat) : List (String × Nat) :=
  (key, v) :: m

/- ### originOf (source lines 61-63) -/

/-- Source `originOf`:
`try { return new URL(urlStr).origin; } catch (e) { return urlStr || ''; }`.
The host `URL` parser is abstracted as `parseOrigin`, which returns the
origin of a string that parses as a URL and `none` (modelling the thrown
`TypeError`) otherwise.  A `none` input models calling with `undefined`,
on which `new URL` also throws and `urlStr || ''` yields `''`; for an
input string `s` the JS fallback `urlStr || ''` equals `s` (when
`s = ''` both sides are `''`). -/
def originOf (parseOrigin : String → Option String) : Option String → String
  | none => ""
  | some s =>
    match parseOrigin s with
    | some o => o
    | none => s

/- ### Backoff policy (failure branch, source lines 582-592) -/

/-- The failure branch of the backoff update in `checkAndLogin`
(lines 587-592), as a function of the current global `backoffSeconds`
and the just-incremented per-origin failure count `attempts`:
`if (!backoffSeconds) backoffSeconds = 2;`
`else if (backoffSeconds < 16) backoffSeconds = Math.min(backoffSeconds*2, 16);`
`else { if (attempts >= 6) backoffSeconds = 5; else backoffSeconds = Math.min(backoffSeconds*2, 60); }`. -/
def backoffOnFailure (backoffSeconds attempts : Nat) : Nat :=
  if backoffSeconds = 0 then 2
  else if backoffSeconds < 16 then min (backoffSeconds * 2) 16
  else if 6 ≤ attempts then 5
  else min (backoffSeconds * 2) 60

/-- One non-keepalive failure of the scheduler, acting on the pair
(global `backoffSeconds`, this origin's `failedAttempts`): the counter
is incremented first (line 583) and the incremented value is the
`attempts` read by the backoff update (lines 584, 590). -/
def failStep : Nat × Nat → Nat × Nat
  | (b, a) => (backoffOnFailure b (a + 1), a + 1)

/- ### Field heuristics (detector lines 190-197, injector lines 402-408) -/

/-- An `<input>` element as sampled by both heuristics: its `name`, `id`,
`type` and `placeholder` attributes (absent attributes are `''`). -/
structure InputEl where
  name : String
  id : String
  type : String
  placeholder : String

/-- Case-sensitive test of the regular expression
`/user|login|email|username|id/` against a string: some alternative
occurs as a substring. -/
def charsStartsWith : List Char → List Char → Bool
  | [], _ => true
  | _ :: _, [] => false
  | a :: as, b :: bs => a == b && charsStartsWith as bs

/-- Contiguous-substring occurrence test on character lists. -/
def charsHasSub (needle : List Char) : List Char → Bool
  | [] => charsStartsWith needle []
  | c :: rest => charsStartsWith needle (c :: rest) || charsHasSub needle rest

/-- `/user|login|email|username|id/.test(s)` (no `i` flag). -/
def reUserTest (s : String) : Bool :=
  ["user", "login", "email", "username", "id"].any
    (fun tok => charsHasSub tok.toList s.toList)

/-- ASCII lowercasing of one character, as `toLowerCase` acts on the
attribute values at issue here. -/
def charLower (c : Char) : Char :=
  if 65 ≤ c.toNat ∧ c.toNat ≤ 90 then Char.ofNat (c.toNat + 32) else c

/-- `s.toLowerCase()`. -/
def strLower (s : String) : String :=
  ⟨s.data.map charLower⟩

/-- `/user|login|email|username|id/i.test(s)`: the `i` flag makes the
match case-insensitive, which for this all-lowercase pattern is the
case-sensitive match against the lowercased subject. -/
def reUserTestI (s : String) : Bool :=
  reUserTest (strLower s)

/-- The FieldDetector's per-input "likely username" criterion
(`detectFieldsInTab`, lines 193-196):
`const meta = ((i.name||'') + ' ' + (i.id||'') + ' ' + (i.placeholder||'')).toLowerCase();`
`return /user|login|email|username|id/.test(meta) || (i.type === 'text' || i.type === 'email');`. -/
def detectorLikelyUser (i : InputEl) : Bool :=
  let meta := strLower (i.name ++ " " ++ i.id ++ " " ++ i.placeholder)
  reUserTest meta || (i.type == "text" || i.type == "email")

/-- The CredentialInjector's fallback username-candidate criterion
(`tryFindAndSubmitInDocument`, lines 404-407):
`const name = (i.name||'') + ' ' + (i.id||'') + ' ' + (i.placeholder||'');`
`return /user|login|email|username|id/i.test(name) && (i.type === 'text' || i.type === 'email' || !i.type);`
(`!i.type` is true exactly for an absent/empty `type`). -/
def injectorUserCandidate (i : InputEl) : Bool :=
  let name := i.name ++ " " ++ i.id ++ " " ++ i.placeholder
  reUserTestI name && (i.type == "text" || i.type == "email" || i.type == "")

/- ### Worker state and environment oracle -/

/-- The slice of the cached configuration the scheduler itself consumes.
The credential fields (`userField`, `passField`, `username`, `password`,
`extraFields`) are only read inside the page-injected function, which is
modelled separately by the field heuristics above and by the
`injectOutcome` oracle field. -/
structure Cfg where
  loginUrl : String

/-- The worker's mutable globals (source lines 14-34).  Note that
`backoffSeconds` (line 16) is a single `let` binding shared by all
origins, while `failedAttemptsByOrigin` and `lastSuccessNotifiedAt`
(lines 31-32) are keyed by origin. -/
structure WorkerState where
  cachedConfig : Option Cfg
  backoffSeconds : Nat
  probeTabId : Option Nat
  lastProbeTime : Nat
  failedAttemptsByOrigin : List (String × Nat)
  lastSuccessNotifiedAt : List (String × Nat)
  createdTabIds : List Nat
  inFlightOrigins : List String

/-- Environment responses for one `checkAndLogin` invocation.  Each field
is the outcome of one external call site; `Except.error ()` models a
rejected promise at a site whose exception the source does not catch
locally. -/
structure Oracle where
  /-- `isInternetUp()` at line 477 (never throws: it catches internally). -/
  netUpInitial : Bool
  /-- `isInternetUp()` at line 511. -/
  netUpAfterWait : Bool
  /-- `chrome.tabs.query` plus origin match, lines 519-521 (inside a local
  try/catch): the id of an existing tab at the configured origin, if any. -/
  keepaliveQuery : Except Unit (Option Nat)
  /-- `isKeepaliveTab` result, line 524 (never throws: it catches internally). -/
  isKeepalive : Bool
  /-- `isInternetUp()` at line 243 (orchestrator entry guard). -/
  netUpOrchGuard : Bool
  /-- `chrome.tabs.query` plus origin match at lines 252-256; this call is
  not wrapped in a try/catch, so a failure rejects out of
  `openPortalTabAndSubmit`. -/
  portalQuery1 : Except Unit (Option Nat)
  /-- Lines 266-271: the recorded probe tab is gone, is a `chrome://` page,
  or `chrome.tabs.get` threw, so `probeTabId` is reset to `null`. -/
  probeGetInvalid : Bool
  /-- `Date.now()` during this invocation (lines 265, 278, 548, 600). -/
  nowMs : Nat
  /-- `chrome.tabs.create` for the probe tab, line 275: the new tab id, or
  `none` when creation threw (caught at lines 282-285). -/
  createProbeTab : Option Nat
  /-- `chrome.tabs.query` plus origin match after the probe, lines 291-297
  (wrapped: a throw leaves no portal tab found). -/
  portalQuery2 : Option Nat
  /-- `isInternetUp()` at line 303 (before navigating the probe). -/
  netUpOrchNav : Bool
  /-- Lines 310-312: navigating the probe tab and re-reading it succeeded
  (a throw is caught at lines 316-318 and leaves no portal tab). -/
  navGetOk : Bool
  /-- `chrome.tabs.create` for the last-resort portal tab, line 324: the
  new tab id, or `none` when creation threw (lines 330-333). -/
  createPortalTab : Option Nat
  /-- `detectFieldsInTab(...).found` per attempt of the retry loop
  (lines 344, 356); attempt 0 is the initial check. -/
  detectFound : Nat → Bool
  /-- The injection `executeScript` call, lines 367-447: `Except.error ()`
  when scripting threw (caught at lines 465-468), otherwise whether some
  frame reported `perFrame.ok`. -/
  injectOutcome : Except Unit Bool
  /-- `isInternetUp()` at line 543 (after a successful submit). -/
  netUpPostSubmit : Bool
  /-- `isInternetUp()` at line 597 (final re-check after a failure). -/
  netUpFinal : Bool

/-- Result shape of `openPortalTabAndSubmit`: `{ok, error?, usedTabId?}`.
`usedTabId` is `none` on the early returns that omit the field. -/
structure SubmitRes where
  ok : Bool
  error : Option String
  usedTabId : Option Nat

/-- Outcome of `openPortalTabAndSubmit`: the returned value (or an
uncaught rejection), the updated worker state, and the ids of tabs this
call created. -/
structure OrchOut where
  res : Except Unit SubmitRes
  st : WorkerState
  created : List Nat

/-- Observable actions of one `checkAndLogin` invocation. -/
structure Effects where
  /-- The backoff wait performed at lines 505-508, if any. -/
  sleptBackoffSeconds : Option Nat
  /-- `openPortalTabAndSubmit` was called (line 537). -/
  invokedOrchestrator : Bool
  /-- Tabs created by the orchestrator during this invocation. -/
  createdTabs : List Nat
  /-- Tabs closed by the cleanup at lines 557-567. -/
  closedTabs : List Nat
  /-- The "locked" notification, line 483. -/
  notifiedLocked : Bool
  /-- The success notification, line 551 or 603. -/
  notifiedSuccess : Bool

/-- No observable actions yet. -/
def noEffects : Effects :=
  ⟨none, false, [], [], false, false⟩

/- ### SessionOrchestrator: openPortalTabAndSubmit (lines 237-469) -/

/-- Field-detection retry loop (lines 342-358): an initial
`detectFieldsInTab` call followed by up to `MAX_FIELD_CHECK_TRIES = 3`
retries (the first retry reloads the tab, later ones wait 1200 ms); the
loop exits as soon as one check reports fields found, so fields are
found overall exactly when some of the at most four checks succeeds. -/
def detectLoopFound (found : Nat → Bool) : Bool :=
  found 0 || found 1 || found 2 || found 3

/-- Shared tail of `openPortalTabAndSubmit` once a portal tab is at hand
(lines 342-468): the field-detection retry loop, then the injection.
`createdTabId` is the source's local of the same name; the returns at
lines 458, 463 and 467 carry it as `usedTabId`, while the early return at
line 362 omits the field. -/
def orchDetectAndInject (o : Oracle) (st : WorkerState) (createdTabId : Option Nat)
    (created : List Nat) : OrchOut :=
  if !(detectLoopFound o.detectFound) then
    ⟨.ok ⟨false, some "fields_not_found_in_all_frames", none⟩, st, created⟩
  else
    match o.injectOutcome with
    | .error _ => ⟨.ok ⟨false, some "scripting_inject_failed", createdTabId⟩, st, created⟩
    | .ok true => ⟨.ok ⟨true, none, createdTabId⟩, st, created⟩
    | .ok false => ⟨.ok ⟨false, some "fields_not_found_in_all_frames", createdTabId⟩, st, created⟩

/-- Last resort of the tab-acquisition phase (lines 321-334): create a
fresh background tab at the portal origin, register it in
`createdTabIds`, and overwrite `createdTabId` with it; on a creation
failure return `tab_create_failed` (line 332, no `usedTabId` field). -/
def orchLastResort (o : Oracle) (st : WorkerState) (created : List Nat) : OrchOut :=
  match o.createPortalTab with
  | some id =>
    orchDetectAndInject o { st with createdTabIds := setAddNat st.createdTabIds id }
      (some id) (id :: created)
  | none => ⟨.ok ⟨false, some "tab_create_failed", none⟩, st, created⟩

/-- Probe-tab phase of `openPortalTabAndSubmit` (lines 264-288): drop a
stale probe id (lines 266-271), then create a probe tab if none exists
and the 15 s creation cooldown has elapsed (lines 273-288; a creation
failure is caught and leaves `probeTabId = null`).  Returns the updated
state, the source's `createdTabId` local, and the tabs created. -/
def orchProbePhase (o : Oracle) (st : WorkerState) : WorkerState × Option Nat × List Nat :=
  let st1 :=
    if st.probeTabId.isSome && o.probeGetInvalid then { st with probeTabId := none } else st
  if st1.probeTabId.isNone ∧ 15000 ≤ o.nowMs - st1.lastProbeTime then
    match o.createProbeTab with
    | some id =>
      ({ st1 with probeTabId := some id,
                  createdTabIds := setAddNat st1.createdTabIds id,
                  lastProbeTime := o.nowMs }, some id, [id])
    | none => ({ st1 with probeTabId := none }, none, [])
  else (st1, none, [])

/-- Lines 291-334: after the probe phase, re-query for a portal tab
(291-297); otherwise navigate the probe tab to the portal origin with
one more connectivity re-check (300-319); otherwise fall back to
creating a portal tab outright. -/
def orchAfterProbe (o : Oracle) (st : WorkerState) (createdTabId : Option Nat)
    (created : List Nat) : OrchOut :=
  match o.portalQuery2 with
  | some _ => orchDetectAndInject o st createdTabId created
  | none =>
    match st.probeTabId with
    | some _ =>
      if o.netUpOrchNav then ⟨.ok ⟨false, some "already_up", none⟩, st, created⟩
      else if o.navGetOk then orchDetectAndInject o st createdTabId created
      else orchLastResort o st created
    | none => orchLastResort o st created

/-- `openPortalTabAndSubmit(cfg)` (lines 237-469): the connectivity
guard (243), the search for an existing portal tab (252-256, reused
without being registered as created), then the probe phase and its
follow-up, ending in the detection/injection tail.  The
`no_portal_tab` return at line 339 is unreachable: every path either
ends in an explicit return or leaves a portal tab in hand. -/
def openPortalTabAndSubmit (o : Oracle) (st : WorkerState) : OrchOut :=
  if o.netUpOrchGuard then
    ⟨.ok ⟨false, some "already_up", none⟩, st, []⟩
  else
    match o.portalQuery1 with
    | .error e => ⟨.error e, st, []⟩
    | .ok (some _) => orchDetectAndInject o st none []
    | .ok none =>
      let p := orchProbePhase o st
      orchAfterProbe o p.1 p.2.1 p.2.2

/- ### RemediationScheduler: checkAndLogin (lines 472-620) -/

/-- Outcome of one inner-try run: the would-be return value (or a
propagating exception), the worker state, and the observable actions. -/
structure BodyOut where
  outcome : Except Unit Bool
  st : WorkerState
  eff : Effects

/-- `inFlightOrigins.add(originKey)` (line 501). -/
def markInFlight (st : WorkerState) (key : String) : WorkerState :=
  { st with inFlightOrigins := setAddStr st.inFlightOrigins key }

/-- `inFlightOrigins.delete(originKey)` (lines 513, 528, 572, 578, 606,
610 and the `finally` at 613-615). -/
def clearInFlight (st : WorkerState) (key : String) : WorkerState :=
  { st with inFlightOrigins := setDelStr st.inFlightOrigins key }

/-- The outer catch (lines 616-619): an exception that escapes the inner
try/finally is logged and turned into a `false` return. -/
def resultOf : Except Unit Bool → Bool
  | .ok r => r
  | .error _ => false

/-- The success path taken when injection reported ok and the re-probe
says the internet is up (lines 543-573): reset the backoff policy for
this origin, raise the success notification unless it is inside the
3-minute per-origin cooldown, close the tab used for this attempt only
if this extension created it (`tid && createdTabIds.has(tid)`,
line 560), and return `true`. -/
def onPostSubmitUp (o : Oracle) (originKey : String) (usedTabId : Option Nat)
    (st : WorkerState) (eff : Effects) : BodyOut :=
  let st1 := { st with backoffSeconds := 0,
                       failedAttemptsByOrigin := setCount st.failedAttemptsByOrigin originKey 0 }
  let notify := 180000 < o.nowMs - getCount st1.lastSuccessNotifiedAt originKey
  let st2 := { st1 with lastSuccessNotifiedAt :=
    if notify then setCount st1.lastSuccessNotifiedAt originKey o.nowMs
    else st1.lastSuccessNotifiedAt }
  match usedTabId with
  | some tid =>
    if tid ≠ 0 ∧ st2.createdTabIds.contains tid then
      let st3 := { st2 with createdTabIds := setDelNat st2.createdTabIds tid,
                            probeTabId := if st2.probeTabId = some tid then none
                                          else st2.probeTabId }
      ⟨.ok true, clearInFlight st3 originKey,
        { eff with notifiedSuccess := notify, closedTabs := [tid] }⟩
    else
      ⟨.ok true, clearInFlight st2 originKey, { eff with notifiedSuccess := notify }⟩
  | none =>
    ⟨.ok true, clearInFlight st2 originKey, { eff with notifiedSuccess := notify }⟩

/-- The inner try block of `checkAndLogin` (lines 503-612), entered after
the origin has been marked in flight.  The surrounding `finally` and the
outer catch live in `checkAndLogin`. -/
def checkAndLoginBody (o : Oracle) (force : Bool) (originKey : String)
    (st : WorkerState) : BodyOut :=
  -- Lines 504-508: wait out any active backoff before attempting.  Note
  -- that this wait is performed whether or not the attempt is forced.
  let slept : Option Nat := if 0 < st.backoffSeconds then some st.backoffSeconds else none
  -- Lines 510-515: connectivity may have recovered during the wait.
  if !force && o.netUpAfterWait then
    ⟨.ok true, clearInFlight st originKey, { noEffects with sleptBackoffSeconds := slept }⟩
  else
    -- Lines 517-534: if an existing tab at the origin is a keepalive
    -- page, force a short steady retry and do not escalate.  A throw in
    -- the query is caught at lines 532-534 and the attempt continues.
    let keepaliveHit :=
      match o.keepaliveQuery with
      | .ok (some _) => o.isKeepalive
      | _ => false
    if keepaliveHit then
      ⟨.ok false, clearInFlight { st with backoffSeconds := 5 } originKey,
        { noEffects with sleptBackoffSeconds := slept }⟩
    else
      -- Lines 536-538: run the orchestrator.
      let orch := openPortalTabAndSubmit o st
      let eff0 : Effects := { noEffects with sleptBackoffSeconds := slept,
                                             invokedOrchestrator := true,
                                             createdTabs := orch.created }
      match orch.res with
      | .error e => ⟨.error e, orch.st, eff0⟩
      | .ok sr =>
        if sr.ok then
          -- Lines 540-580.
          if o.netUpPostSubmit then
            onPostSubmitUp o originKey sr.usedTabId orch.st eff0
          else
            -- Line 576: injection succeeded but connectivity is still down.
            ⟨.ok false,
              clearInFlight
                { orch.st with backoffSeconds :=
                    if orch.st.backoffSeconds ≠ 0 then min (orch.st.backoffSeconds * 2) 16
                    else 2 }
                originKey,
              eff0⟩
        else
          -- Lines 581-611: injection failed.
          let a := getCount orch.st.failedAttemptsByOrigin originKey + 1
          let st1 := { orch.st with
                         failedAttemptsByOrigin :=
                           setCount orch.st.failedAttemptsByOrigin originKey a,
                         backoffSeconds := backoffOnFailure orch.st.backoffSeconds a }
          if o.netUpFinal then
            -- Lines 597-608: connectivity recovered independently.
            let st2 := { st1 with failedAttemptsByOrigin :=
                           setCount st1.failedAttemptsByOrigin originKey 0 }
            let notify := 180000 < o.nowMs - getCount st2.lastSuccessNotifiedAt originKey
            let st3 := { st2 with lastSuccessNotifiedAt :=
              if notify then setCount st2.lastSuccessNotifiedAt originKey o.nowMs
              else st2.lastSuccessNotifiedAt }
            ⟨.ok true, clearInFlight st3 originKey,
              { eff0 with notifiedSuccess := notify }⟩
          else
            ⟨.ok false, clearInFlight st1 originKey, eff0⟩

/-- Top-level scheduler `checkAndLogin(force)` (lines 472-620): the
connectivity short-circuit (`!force` only, line 477), the locked check
(482-486), the missing-`loginUrl` check (489-492), the per-origin
dedupe guard (`has(originKey) && !force`, lines 497-500), marking the
origin in flight, the inner try (modelled by `checkAndLoginBody`), the
`finally` that always deletes the in-flight mark (613-615), and the
outer catch that converts any escaped exception into `false` (616-619). -/
def checkAndLogin (o : Oracle) (parseOrigin : String → Option String) (force : Bool)
    (st : WorkerState) : Bool × WorkerState × Effects :=
  if !force && o.netUpInitial then (true, st, noEffects)
  else
    match st.cachedConfig with
    | none => (false, st, { noEffects with notifiedLocked := true })
    | some cfg =>
      if cfg.loginUrl = "" then (false, st, noEffects)
      else
        let originKey := originOf parseOrigin (some cfg.loginUrl)
        if st.inFlightOrigins.contains originKey && !force then (false, st, noEffects)
        else
          let b := checkAndLoginBody o force originKey (markInFlight st originKey)
          (resultOf b.outcome, clearInFlight b.st originKey, b.eff)

/- ### Concrete fixtures used by counterexamples and witnesses -/

/-- A configured portal. -/
def cfgA : Cfg := ⟨"http://portal-a.example/login"⟩

/-- A second, distinct portal. -/
def cfgB : Cfg := ⟨"http://portal-b.example/login"⟩

/-- A concrete host URL parser for the fixture URLs. -/
def parseFix : String → Option String := fun s =>
  if s = "http://portal-a.example/login" then some "http://portal-a.example"
  else if s = "http://portal-b.example/login" then some "http://portal-b.example"
  else none

/-- Fresh worker state configured for `cfgA`. -/
def stBase : WorkerState := ⟨some cfgA, 0, none, 0, [], [], [], []⟩

/-- Environment where every probe reports the internet down, no portal
tab exists, probe-tab creation yields tab 7, detection never finds
fields, and injection reports failure. -/
def oracleAllDown : Oracle :=
  ⟨false, false, .ok none, false, false, .ok none, false, 1000000, some 7, none,
    false, true, some 8, fun _ => false, .ok false, false, false⟩

/-- Environment where every connectivity probe reports 204. -/
def oracleAllUp : Oracle :=
  { oracleAllDown with netUpInitial := true, netUpAfterWait := true,
                       netUpOrchGuard := true, netUpPostSubmit := true, netUpFinal := true }

/-- Environment where the portal tab is created, fields are found,
injection fails, and the final re-check reports the internet up. -/
def oracleFailThenUp : Oracle :=
  { oracleAllDown with detectFound := fun _ => true, netUpFinal := true }

/-- Environment reusing an existing portal tab 42 with a fully
successful attempt. -/
def oracleReuse : Oracle :=
  { oracleAllDown with portalQuery1 := .ok (some 42), detectFound := fun _ => true,
                       injectOutcome := .ok true, netUpPostSubmit := true }

/-- Environment whose unguarded `tabs.query` (line 252) rejects. -/
def oracleThrow : Oracle :=
  { oracleAllDown with portalQuery1 := .error () }

/- ### C1: the failure branch of the backoff policy -/

/-- C1: on every remediation failure the backoff update follows the
source policy: from 0 it becomes 2; below the 16 s ceiling it doubles
capped at 16; once at (or beyond) the 16 s ceiling it collapses to a
steady 5 s when `failedAttempts ≥ 6` regardless of the prior exponential
value, and otherwise doubles capped at 60; and six consecutive
non-keepalive failures from the reset state leave `backoffSeconds = 5`. -/
theorem backoff_failure_policy_c1 :
    (∀ b a : Nat,
      (b = 0 → backoffOnFailure b a = 2) ∧
      (0 < b → b < 16 → backoffOnFailure b a = min (b * 2) 16) ∧
      (16 ≤ b → 6 ≤ a → backoffOnFailure b a = 5) ∧
      (16 ≤ b → a < 6 → backoffOnFailure b a = min (b * 2) 60)) ∧
    (failStep^[6] (0, 0)).1 = 5 := by
  constructor
  · intro b a
    unfold backoffOnFailure
    refine ⟨fun h => ?_, fun h1 h2 => ?_, fun h1 h2 => ?_, fun h1 h2 => ?_⟩ <;>
      split_ifs <;> omega
  · decide

/-- Instances of C1 at concrete inputs: a first failure, a doubling
failure, the steady-5 collapse at the ceiling, and ceiling growth. -/
theorem backoff_failure_policy_c1_witness :
    backoffOnFailure 0 1 = 2 ∧ backoffOnFailure 4 3 = 8 ∧
    backoffOnFailure 32 7 = 5 ∧ backoffOnFailure 16 5 = 32 := by
  refine ⟨(backoff_failure_policy_c1.1 0 1).1 rfl, ?_, ?_, ?_⟩
  · simpa using (backoff_failure_policy_c1.1 4 3).2.1 (by decide) (by decide)
  · exact (backoff_failure_policy_c1.1 32 7).2.2.1 (by decide) (by decide)
  · simpa using (backoff_failure_policy_c1.1 16 5).2.2.2 (by decide) (by decide)

/- ### C9: injector fallback vs detector username heuristic -/

/-- C9 counterexample: for the input element
`<input name="foo" type="text">` the FieldDetector counts it as a likely
username field (its type is `text`), but the CredentialInjector's
fallback heuristic rejects it (its name/id/placeholder do not match
`/user|login|email|username|id/i`), so the two criteria are not
identical; `<input name="user" type="hidden">` separates them in the
same direction via the type conjunct. -/
theorem user_heuristic_c9_cex :
    detectorLikelyUser ⟨"foo", "", "text", ""⟩ = true ∧
    injectorUserCandidate ⟨"foo", "", "text", ""⟩ = false ∧
    detectorLikelyUser ⟨"user", "", "hidden", ""⟩ = true ∧
    injectorUserCandidate ⟨"user", "", "hidden", ""⟩ = false := by
  refine ⟨rfl, by decide, rfl, by decide⟩

/-- C9 amended: the injector's fallback heuristic is strictly stronger
than the detector's criterion, not identical to it: it classifies an
input as a username candidate exactly when its name/id/placeholder
matches `/user|login|email|username|id/i` AND its type is
text/email/absent, so every fallback candidate is also a detector
"likely username" input, but not conversely. -/
theorem injector_stronger_than_detector_c9 (i : InputEl)
    (h : injectorUserCandidate i = true) : detectorLikelyUser i = true := by
  unfold injectorUserCandidate reUserTestI at h
  unfold detectorLikelyUser
  rcases Bool.and_eq_true_iff.mp h with ⟨hre, _⟩
  simp [hre]

/-- C9 amended, instance: the fallback candidate
`<input name="Account-ID" type="email">` is also a detector likely
username input. -/
theorem injector_stronger_than_detector_c9_witness :
    detectorLikelyUser ⟨"Account-ID", "", "email", ""⟩ = true :=
  injector_stronger_than_detector_c9 ⟨"Account-ID", "", "email", ""⟩ (by decide)

/- ### Support lemmas about the set and map helpers -/

theorem getCount_setCount_self (m : List (String × Nat)) (k : String) (v : Nat) :
    getCount (setCount m k v) k = v := by
  simp [getCount, setCount]

theorem getCount_setCount_ne (m : List (String × Nat)) (k k' : String) (v : Nat)
    (h : k' ≠ k) : getCount (setCount m k v) k' = getCount m k' := by
  simp only [setCount, getCount]
  rw [if_neg (Ne.symm h)]

theorem mem_setDelStr_iff (s : List String) (x y : String) :
    y ∈ setDelStr s x ↔ y ∈ s ∧ y ≠ x := by
  simp [setDelStr, List.mem_filter, bne_iff_ne]

theorem not_mem_setDelStr (s : List String) (x : String) : x ∉ setDelStr s x := by
  simp [mem_setDelStr_iff]

theorem mem_setAddStr_iff (s : List String) (x y : String) :
    y ∈ setAddStr s x ↔ y = x ∨ y ∈ s := by
  unfold setAddStr
  split
  · constructor
    · exact fun h => Or.inr h
    · rintro (rfl | h) <;> assumption
  · simp [List.mem_cons]

theorem mem_setAddNat_iff (s : List Nat) (x y : Nat) :
    y ∈ setAddNat s x ↔ y = x ∨ y ∈ s := by
  unfold setAddNat
  split
  · constructor
    · exact fun h => Or.inr h
    · rintro (rfl | h) <;> assumption
  · simp [List.mem_cons]

theorem mem_setDelNat_sub (s : List Nat) (x y : Nat) :
    y ∈ setDelNat s x → y ∈ s := by
  simp only [setDelNat, List.mem_filter]
  exact fun h => h.1

/- ### Structural lemmas about the orchestrator -/

/-- The detect-and-inject tail leaves the state untouched and creates
nothing new. -/
theorem detectInject_st (o : Oracle) (st : WorkerState) (c : Option Nat) (cr : List Nat) :
    (orchDetectAndInject o st c cr).st = st ∧ (orchDetectAndInject o st c cr).created = cr := by
  unfold orchDetectAndInject
  repeat' split
  all_goals exact ⟨rfl, rfl⟩

/-- The probe phase touches only `probeTabId`, `lastProbeTime` and
`createdTabIds`. -/
theorem probePhase_preserves (o : Oracle) (st : WorkerState) :
    (orchProbePhase o st).1.backoffSeconds = st.backoffSeconds ∧
    (orchProbePhase o st).1.failedAttemptsByOrigin = st.failedAttemptsByOrigin ∧
    (orchProbePhase o st).1.lastSuccessNotifiedAt = st.lastSuccessNotifiedAt ∧
    (orchProbePhase o st).1.inFlightOrigins = st.inFlightOrigins ∧
    (orchProbePhase o st).1.cachedConfig = st.cachedConfig := by
  unfold orchProbePhase
  dsimp only
  repeat' split
  all_goals simp_all

/-- Registry membership after the probe phase: the old members plus the
tabs the phase created. -/
theorem probePhase_registry (o : Oracle) (st : WorkerState) (t : Nat) :
    t ∈ (orchProbePhase o st).1.createdTabIds ↔
      t ∈ st.createdTabIds ∨ t ∈ (orchProbePhase o st).2.2 := by
  unfold orchProbePhase
  dsimp only
  repeat' split
  all_goals try simp_all [mem_setAddNat_iff]
  all_goals tauto

/-- Registry bookkeeping of the last-resort creation: membership grows
in step with the created list, old members stay, and the created list
only grows. -/
theorem lastResort_registry (o : Oracle) (st : WorkerState) (cr : List Nat) (t : Nat) :
    ((t ∈ (orchLastResort o st cr).st.createdTabIds ∨ t ∈ cr) ↔
      (t ∈ st.createdTabIds ∨ t ∈ (orchLastResort o st cr).created)) ∧
    (t ∈ st.createdTabIds → t ∈ (orchLastResort o st cr).st.createdTabIds) ∧
    (t ∈ cr → t ∈ (orchLastResort o st cr).created) := by
  unfold orchLastResort orchDetectAndInject
  repeat' split
  all_goals try simp_all [mem_setAddNat_iff]
  all_goals tauto

/-- Field preservation of the last-resort creation. -/
theorem lastResort_preserves (o : Oracle) (st : WorkerState) (cr : List Nat) :
    (orchLastResort o st cr).st.backoffSeconds = st.backoffSeconds ∧
    (orchLastResort o st cr).st.failedAttemptsByOrigin = st.failedAttemptsByOrigin ∧
    (orchLastResort o st cr).st.lastSuccessNotifiedAt = st.lastSuccessNotifiedAt ∧
    (orchLastResort o st cr).st.inFlightOrigins = st.inFlightOrigins ∧
    (orchLastResort o st cr).st.cachedConfig = st.cachedConfig := by
  unfold orchLastResort orchDetectAndInject
  repeat' split
  all_goals simp_all

/-- Field preservation of the post-probe phase. -/
theorem afterProbe_preserves (o : Oracle) (st : WorkerState) (c : Option Nat) (cr : List Nat) :
    (orchAfterProbe o st c cr).st.backoffSeconds = st.backoffSeconds ∧
    (orchAfterProbe o st c cr).st.failedAttemptsByOrigin = st.failedAttemptsByOrigin ∧
    (orchAfterProbe o st c cr).st.lastSuccessNotifiedAt = st.lastSuccessNotifiedAt ∧
    (orchAfterProbe o st c cr).st.inFlightOrigins = st.inFlightOrigins ∧
    (orchAfterProbe o st c cr).st.cachedConfig = st.cachedConfig := by
  have hl := lastResort_preserves o st cr
  have hd := detectInject_st o st c cr
  unfold orchAfterProbe
  repeat' split
  all_goals simp_all

/-- Registry bookkeeping of the post-probe phase. -/
theorem afterProbe_registry (o : Oracle) (st : WorkerState) (c : Option Nat) (cr : List Nat)
    (t : Nat) :
    ((t ∈ (orchAfterProbe o st c cr).st.createdTabIds ∨ t ∈ cr) ↔
      (t ∈ st.createdTabIds ∨ t ∈ (orchAfterProbe o st c cr).created)) ∧
    (t ∈ st.createdTabIds → t ∈ (orchAfterProbe o st c cr).st.createdTabIds) ∧
    (t ∈ cr → t ∈ (orchAfterProbe o st c cr).created) := by
  have hl := lastResort_registry o st cr t
  have hd := detectInject_st o st c cr
  unfold orchAfterProbe
  repeat' split
  all_goals simp_all

/-- `openPortalTabAndSubmit` touches only the probe bookkeeping and the
created-tab registry: the backoff policy fields, the notification
throttle map, the in-flight set and the cached config are unchanged. -/
theorem orch_preserves (o : Oracle) (st : WorkerState) :
    (openPortalTabAndSubmit o st).st.backoffSeconds = st.backoffSeconds ∧
    (openPortalTabAndSubmit o st).st.failedAttemptsByOrigin = st.failedAttemptsByOrigin ∧
    (openPortalTabAndSubmit o st).st.lastSuccessNotifiedAt = st.lastSuccessNotifiedAt ∧
    (openPortalTabAndSubmit o st).st.inFlightOrigins = st.inFlightOrigins ∧
    (openPortalTabAndSubmit o st).st.cachedConfig = st.cachedConfig := by
  obtain ⟨p1, p2, p3, p4, p5⟩ := probePhase_preserves o st
  obtain ⟨a1, a2, a3, a4, a5⟩ :=
    afterProbe_preserves o (orchProbePhase o st).1 (orchProbePhase o st).2.1
      (orchProbePhase o st).2.2
  have hd := detectInject_st o st none ([] : List Nat)
  unfold openPortalTabAndSubmit
  dsimp only
  repeat' split
  all_goals simp_all

/-- Membership in the created-tab registry after the orchestrator:
exactly the old members plus the tabs this call created. -/
theorem orch_registry (o : Oracle) (st : WorkerState) (t : Nat) :
    t ∈ (openPortalTabAndSubmit o st).st.createdTabIds ↔
      t ∈ st.createdTabIds ∨ t ∈ (openPortalTabAndSubmit o st).created := by
  have hp := probePhase_registry o st t
  obtain ⟨ar, am, ac⟩ :=
    afterProbe_registry o (orchProbePhase o st).1 (orchProbePhase o st).2.1
      (orchProbePhase o st).2.2 t
  have hd := detectInject_st o st none ([] : List Nat)
  unfold openPortalTabAndSubmit
  dsimp only
  repeat' split
  all_goals try simp_all
  all_goals tauto

/-- When an existing tab at the portal origin is found (line 253), it is
reused: nothing is created, the state is untouched, and the result
carries no `usedTabId`. -/
theorem orch_reuse_no_create (o : Oracle) (st : WorkerState) (t : Nat)
    (h : o.portalQuery1 = Except.ok (some t)) :
    (openPortalTabAndSubmit o st).created = [] ∧
    (openPortalTabAndSubmit o st).st = st ∧
    (∀ sr, (openPortalTabAndSubmit o st).res = Except.ok sr → sr.usedTabId = none) := by
  unfold openPortalTabAndSubmit orchDetectAndInject
  dsimp only
  split
  · refine ⟨rfl, rfl, ?_⟩
    intro sr hsr
    cases hsr
    rfl
  · rw [h]
    dsimp only
    repeat' split
    all_goals refine ⟨rfl, rfl, ?_⟩
    all_goals intro sr hsr
    all_goals cases hsr
    all_goals rfl

/-- The guard at line 243: with the internet already up, the
orchestrator aborts with `already_up` and does nothing. -/
theorem orch_guard_up (o : Oracle) (st : WorkerState) (h : o.netUpOrchGuard = true) :
    openPortalTabAndSubmit o st =
      ⟨Except.ok ⟨false, some "already_up", none⟩, st, []⟩ := by
  unfold openPortalTabAndSubmit
  simp [h]

/- ### Structural lemmas about the scheduler -/

/-- With a cached config, a nonempty login URL, no initial short-circuit
and a passing dedupe guard, `checkAndLogin` marks the origin in flight,
runs the inner try, and applies the `finally` and outer catch. -/
theorem checkAndLogin_proceeds (o : Oracle) (parse : String → Option String) (force : Bool)
    (st : WorkerState) (cfg : Cfg)
    (hcfg : st.cachedConfig = some cfg) (hurl : cfg.loginUrl ≠ "")
    (hinit : (!force && o.netUpInitial) = false)
    (hguard : (st.inFlightOrigins.contains (originOf parse (some cfg.loginUrl)) && !force)
      = false) :
    checkAndLogin o parse force st =
      (resultOf (checkAndLoginBody o force (originOf parse (some cfg.loginUrl))
          (markInFlight st (originOf parse (some cfg.loginUrl)))).outcome,
       clearInFlight (checkAndLoginBody o force (originOf parse (some cfg.loginUrl))
          (markInFlight st (originOf parse (some cfg.loginUrl)))).st
         (originOf parse (some cfg.loginUrl)),
       (checkAndLoginBody o force (originOf parse (some cfg.loginUrl))
          (markInFlight st (originOf parse (some cfg.loginUrl)))).eff) := by
  unfold checkAndLogin
  simp only [hinit, Bool.false_eq_true, if_false, hcfg]
  rw [if_neg hurl]
  simp only [hguard, Bool.false_eq_true, if_false]

/-- The backoff wait of the inner try (lines 505-508) happens on every
path, forced or not, and lasts the incoming global `backoffSeconds`. -/
theorem body_slept (o : Oracle) (force : Bool) (key : String) (st : WorkerState) :
    (checkAndLoginBody o force key st).eff.sleptBackoffSeconds =
      if 0 < st.backoffSeconds then some st.backoffSeconds else none := by
  unfold checkAndLoginBody onPostSubmitUp
  dsimp only
  repeat' split
  all_goals simp_all [noEffects]

/-- The inner try only ever removes this origin from the in-flight set. -/
theorem body_inflight (o : Oracle) (force : Bool) (key : String) (st : WorkerState) :
    (checkAndLoginBody o force key st).st.inFlightOrigins = st.inFlightOrigins ∨
    (checkAndLoginBody o force key st).st.inFlightOrigins = setDelStr st.inFlightOrigins key := by
  obtain ⟨b1, b2, b3, b4, b5⟩ := orch_preserves o st
  unfold checkAndLoginBody onPostSubmitUp clearInFlight
  dsimp only
  repeat' split
  all_goals simp_all

/-- The inner try never touches the failure counter of another origin. -/
theorem body_attempts_frame (o : Oracle) (force : Bool) (key : String) (st : WorkerState)
    (k : String) (hk : k ≠ key) :
    getCount (checkAndLoginBody o force key st).st.failedAttemptsByOrigin k =
      getCount st.failedAttemptsByOrigin k := by
  obtain ⟨b1, b2, b3, b4, b5⟩ := orch_preserves o st
  unfold checkAndLoginBody onPostSubmitUp clearInFlight
  dsimp only
  repeat' split
  all_goals simp_all [getCount_setCount_ne _ _ _ _ hk]

/-- Full characterization of the inner try when the attempt reaches the
orchestrator and the orchestrator reports failure (lines 581-611): the
failure counter for this origin is incremented, the global backoff is
escalated by `backoffOnFailure`, and the result is decided by the final
connectivity re-check, which on success resets the counter to 0 and may
raise the throttled success notification; no tab is ever closed on this
path, and the in-flight mark is removed. -/
theorem body_failure (o : Oracle) (force : Bool) (key : String) (st : WorkerState)
    (sr : SubmitRes)
    (hwait : (!force && o.netUpAfterWait) = false)
    (hq : o.keepaliveQuery = Except.ok none)
    (horch : (openPortalTabAndSubmit o st).res = Except.ok sr)
    (hok : sr.ok = false) :
    (checkAndLoginBody o force key st).outcome = Except.ok o.netUpFinal ∧
    (checkAndLoginBody o force key st).st.backoffSeconds =
      backoffOnFailure st.backoffSeconds (getCount st.failedAttemptsByOrigin key + 1) ∧
    getCount (checkAndLoginBody o force key st).st.failedAttemptsByOrigin key =
      (if o.netUpFinal then 0 else getCount st.failedAttemptsByOrigin key + 1) ∧
    (checkAndLoginBody o force key st).eff.invokedOrchestrator = true ∧
    (checkAndLoginBody o force key st).eff.closedTabs = [] ∧
    (checkAndLoginBody o force key st).eff.createdTabs = (openPortalTabAndSubmit o st).created ∧
    (checkAndLoginBody o force key st).eff.notifiedSuccess =
      (o.netUpFinal && decide (180000 < o.nowMs - getCount st.lastSuccessNotifiedAt key)) ∧
    (checkAndLoginBody o force key st).st.inFlightOrigins = setDelStr st.inFlightOrigins key := by
  obtain ⟨b1, b2, b3, b4, b5⟩ := orch_preserves o st
  unfold checkAndLoginBody clearInFlight
  simp only [hwait, Bool.false_eq_true, if_false, hq]
  dsimp only
  rw [horch]
  dsimp only
  simp only [hok, Bool.false_eq_true, if_false]
  repeat' split
  all_goals simp_all [getCount_setCount_self, noEffects]

/-- Tab bookkeeping of the success path: either the closed-tab record is
passed through untouched along with the registry, or exactly the
engine-created tab recorded for this attempt is closed, and it was a
registry member; the created list is passed through, and with no
`usedTabId` nothing is closed. -/
theorem postSubmitUp_tabs (o : Oracle) (key : String) (u : Option Nat) (st : WorkerState)
    (eff : Effects) :
    ((onPostSubmitUp o key u st eff).eff.closedTabs = eff.closedTabs ∧
       (onPostSubmitUp o key u st eff).st.createdTabIds = st.createdTabIds ∨
     (∃ tid, (onPostSubmitUp o key u st eff).eff.closedTabs = [tid] ∧ tid ∈ st.createdTabIds ∧
       (onPostSubmitUp o key u st eff).st.createdTabIds = setDelNat st.createdTabIds tid)) ∧
    (onPostSubmitUp o key u st eff).eff.createdTabs = eff.createdTabs ∧
    (u = none → (onPostSubmitUp o key u st eff).eff.closedTabs = eff.closedTabs) := by
  unfold onPostSubmitUp clearInFlight
  dsimp only
  repeat' split
  all_goals refine ⟨?_, rfl, fun hu => by simp_all⟩
  all_goals first
    | exact Or.inl ⟨rfl, rfl⟩
    | (refine Or.inr ⟨_, rfl, ?_, rfl⟩
       simp_all [List.contains, List.elem_iff])

theorem mem_setDelNat_iff (s : List Nat) (x y : Nat) :
    y ∈ setDelNat s x ↔ y ∈ s ∧ y ≠ x := by
  simp [setDelNat, List.mem_filter, bne_iff_ne]

/-- Tab bookkeeping of the whole inner try: every tab closed was already
in the registry at the start of the attempt or was created during it,
and the registry after the attempt contains only such tabs. -/
theorem body_tabs (o : Oracle) (force : Bool) (key : String) (st : WorkerState) :
    (∀ t, t ∈ (checkAndLoginBody o force key st).eff.closedTabs →
      t ∈ st.createdTabIds ∨ t ∈ (checkAndLoginBody o force key st).eff.createdTabs) ∧
    (∀ t, t ∈ (checkAndLoginBody o force key st).st.createdTabIds →
      t ∈ st.createdTabIds ∨ t ∈ (checkAndLoginBody o force key st).eff.createdTabs) := by
  have hreg := orch_registry o st
  unfold checkAndLoginBody onPostSubmitUp clearInFlight
  dsimp only
  repeat' split
  all_goals constructor
  all_goals intro t ht
  all_goals simp_all [List.contains, List.elem_iff, mem_setDelNat_iff, noEffects]

/-- When an existing portal tab is reused, the whole attempt closes no
tab and creates none. -/
theorem body_reuse (o : Oracle) (force : Bool) (key : String) (st : WorkerState) (t : Nat)
    (hq1 : o.portalQuery1 = Except.ok (some t)) :
    (checkAndLoginBody o force key st).eff.closedTabs = [] ∧
    (checkAndLoginBody o force key st).eff.createdTabs = [] := by
  obtain ⟨hcr, hst, hu⟩ := orch_reuse_no_create o st t hq1
  unfold checkAndLoginBody onPostSubmitUp clearInFlight
  dsimp only
  repeat' split
  all_goals simp_all [noEffects]

/- ### C2: the backoff wait and forced attempts -/

/-- C2 counterexample: a user-forced attempt (`force = true`) with
`backoffSeconds = 2` still performs the 2 s backoff sleep — the wait at
lines 505-508 is not guarded by `force`, so a forced attempt does not
skip it as the claim states. -/
theorem forced_sleep_c2_cex :
    (checkAndLogin oracleAllDown parseFix true
      { stBase with backoffSeconds := 2 }).2.2.sleptBackoffSeconds = some 2 := by
  rfl

/-- C2 amended: the scheduler sleeps for the current `backoffSeconds`
(when nonzero) before every attempt that reaches the inner try, whether
or not the attempt is user-forced; force bypasses only the connectivity
short-circuits and the in-flight dedupe guard, not the backoff wait. -/
theorem backoff_sleep_unconditional_c2 (o : Oracle) (parse : String → Option String)
    (force : Bool) (st : WorkerState) (cfg : Cfg)
    (hcfg : st.cachedConfig = some cfg) (hurl : cfg.loginUrl ≠ "")
    (hinit : (!force && o.netUpInitial) = false)
    (hguard : (st.inFlightOrigins.contains (originOf parse (some cfg.loginUrl)) && !force)
      = false) :
    (checkAndLogin o parse force st).2.2.sleptBackoffSeconds =
      if 0 < st.backoffSeconds then some st.backoffSeconds else none := by
  rw [checkAndLogin_proceeds o parse force st cfg hcfg hurl hinit hguard]
  have h := body_slept o force (originOf parse (some cfg.loginUrl))
    (markInFlight st (originOf parse (some cfg.loginUrl)))
  simpa [markInFlight] using h

/-- C2 amended, instance: a non-forced attempt with backoff 4 sleeps 4 s. -/
theorem backoff_sleep_unconditional_c2_witness :
    (checkAndLogin oracleAllDown parseFix false
      { stBase with backoffSeconds := 4 }).2.2.sleptBackoffSeconds = some 4 := by
  have h := backoff_sleep_unconditional_c2 oracleAllDown parseFix false
    { stBase with backoffSeconds := 4 } cfgA rfl (by decide) (by decide) (by decide)
  simpa using h

/- ### C5: in-flight always cleared, exceptions converted to failure -/

/-- C5: on every exit path of an attempt that was not already in flight,
the origin's in-flight mark is gone when `checkAndLogin` returns; the
call never grows the in-flight set; and an exception escaping the inner
try (modelled by `checkAndLoginBody` producing `Except.error`) is
converted by the outer catch into a plain `false` return instead of
propagating. -/
theorem inflight_cleared_c5 (o : Oracle) (parse : String → Option String) (force : Bool)
    (st : WorkerState) (cfg : Cfg)
    (hcfg : st.cachedConfig = some cfg) (hurl : cfg.loginUrl ≠ "")
    (hinit : (!force && o.netUpInitial) = false)
    (hflight : st.inFlightOrigins.contains (originOf parse (some cfg.loginUrl)) = false) :
    originOf parse (some cfg.loginUrl) ∉ (checkAndLogin o parse force st).2.1.inFlightOrigins ∧
    (∀ k, k ∈ (checkAndLogin o parse force st).2.1.inFlightOrigins →
      k ∈ st.inFlightOrigins) ∧
    (∀ e, (checkAndLoginBody o force (originOf parse (some cfg.loginUrl))
        (markInFlight st (originOf parse (some cfg.loginUrl)))).outcome = Except.error e →
      (checkAndLogin o parse force st).1 = false) := by
  have hguard : (st.inFlightOrigins.contains (originOf parse (some cfg.loginUrl)) && !force)
      = false := by rw [hflight]; exact Bool.false_and _
  rw [checkAndLogin_proceeds o parse force st cfg hcfg hurl hinit hguard]
  refine ⟨?_, ?_, ?_⟩
  · exact not_mem_setDelStr _ _
  · intro k hk
    have h1 := (mem_setDelStr_iff _ _ _).mp hk
    have h2 := body_inflight o force (originOf parse (some cfg.loginUrl))
      (markInFlight st (originOf parse (some cfg.loginUrl)))
    rcases h2 with h2 | h2
    · rw [h2] at h1
      rcases (mem_setAddStr_iff _ _ _).mp h1.1 with rfl | h3
      · exact absurd rfl h1.2
      · exact h3
    · rw [h2] at h1
      have h3 := (mem_setDelStr_iff _ _ _).mp h1.1
      rcases (mem_setAddStr_iff _ _ _).mp h3.1 with rfl | h4
      · exact absurd rfl h1.2
      · exact h4
  · intro e he
    simp only [he, resultOf]

/-- C5 instance: with the unguarded `tabs.query` rejecting inside the
orchestrator, the call returns `false` and the in-flight mark is gone. -/
theorem inflight_cleared_c5_witness :
    originOf parseFix (some cfgA.loginUrl) ∉
      (checkAndLogin oracleThrow parseFix false stBase).2.1.inFlightOrigins ∧
    (checkAndLogin oracleThrow parseFix false stBase).1 = false := by
  have h := inflight_cleared_c5 oracleThrow parseFix false stBase cfgA rfl
    (by decide) (by decide) (by decide)
  exact ⟨h.1, h.2.2 () rfl⟩

/- ### C6: the keepalive override -/

/-- C6: whenever an attempt reaches the keepalive check, finds an
existing tab at the target origin and classifies it as a keepalive page,
the scheduler forces `backoffSeconds = 5`, leaves the whole per-origin
failure-counter map untouched, never invokes the orchestrator (so no
injection is attempted and no tab is created), and returns failure with
the in-flight mark cleared. -/
theorem keepalive_override_c6 (o : Oracle) (parse : String → Option String) (force : Bool)
    (st : WorkerState) (cfg : Cfg) (t : Nat)
    (hcfg : st.cachedConfig = some cfg) (hurl : cfg.loginUrl ≠ "")
    (hinit : (!force && o.netUpInitial) = false)
    (hguard : (st.inFlightOrigins.contains (originOf parse (some cfg.loginUrl)) && !force)
      = false)
    (hwait : (!force && o.netUpAfterWait) = false)
    (hq : o.keepaliveQuery = Except.ok (some t)) (hk : o.isKeepalive = true) :
    (checkAndLogin o parse force st).1 = false ∧
    (checkAndLogin o parse force st).2.1.backoffSeconds = 5 ∧
    (checkAndLogin o parse force st).2.1.failedAttemptsByOrigin = st.failedAttemptsByOrigin ∧
    (checkAndLogin o parse force st).2.2.invokedOrchestrator = false ∧
    (checkAndLogin o parse force st).2.2.createdTabs = [] ∧
    originOf parse (some cfg.loginUrl) ∉ (checkAndLogin o parse force st).2.1.inFlightOrigins := by
  rw [checkAndLogin_proceeds o parse force st cfg hcfg hurl hinit hguard]
  unfold checkAndLoginBody clearInFlight markInFlight
  simp only [hwait, Bool.false_eq_true, if_false, hq, hk]
  dsimp only
  exact ⟨rfl, rfl, rfl, rfl, rfl, not_mem_setDelStr _ _⟩

/-- Environment with a keepalive tab 9 at the configured origin. -/
def oracleKeep : Oracle :=
  { oracleAllDown with keepaliveQuery := Except.ok (some 9), isKeepalive := true }

/-- State with a recorded failure count of 3 for the configured origin. -/
def stKeep : WorkerState :=
  { stBase with failedAttemptsByOrigin := [("http://portal-a.example", 3)] }

/-- C6 instance: keepalive tab 9 at the configured origin with a
recorded failure count of 3. -/
theorem keepalive_override_c6_witness :
    (checkAndLogin oracleKeep parseFix false stKeep).1 = false ∧
    (checkAndLogin oracleKeep parseFix false stKeep).2.1.backoffSeconds = 5 ∧
    (checkAndLogin oracleKeep parseFix false stKeep).2.1.failedAttemptsByOrigin =
      [("http://portal-a.example", 3)] := by
  have h := keepalive_override_c6 oracleKeep parseFix false stKeep cfgA 9
    rfl (by decide) (by decide) (by decide) (by decide) rfl rfl
  exact ⟨h.1, h.2.1, h.2.2.1⟩

/- ### C3: forced trigger while the probe reports 204 -/

/-- C3 counterexample: with every probe returning 204 and `force = true`,
`checkAndLogin` does return success, but it invokes the
SessionOrchestrator (which aborts with `already_up`) and escalates the
global backoff from 0 to 2 on the way — the claim's "without invoking
the SessionOrchestrator, and without changing backoffSeconds" is false. -/
theorem forced_up_c3_cex :
    (checkAndLogin oracleAllUp parseFix true stBase).1 = true ∧
    (checkAndLogin oracleAllUp parseFix true stBase).2.2.invokedOrchestrator = true ∧
    stBase.backoffSeconds = 0 ∧
    (checkAndLogin oracleAllUp parseFix true stBase).2.1.backoffSeconds = 2 :=
  ⟨rfl, rfl, rfl, rfl⟩

/-- C3 amended: a forced trigger while the connectivity probe reports
204 returns success, but only after invoking the SessionOrchestrator,
which aborts with `already_up` before creating or closing any session;
the attempt is first booked as a failure, so `backoffSeconds` is
escalated one step by the failure policy, and the final re-check then
resets this origin's `failedAttempts` to 0. -/
theorem forced_up_treated_success_c3 (o : Oracle) (parse : String → Option String)
    (st : WorkerState) (cfg : Cfg)
    (hcfg : st.cachedConfig = some cfg) (hurl : cfg.loginUrl ≠ "")
    (hup : o.netUpOrchGuard = true) (hfin : o.netUpFinal = true)
    (hq : o.keepaliveQuery = Except.ok none) :
    (checkAndLogin o parse true st).1 = true ∧
    (checkAndLogin o parse true st).2.2.invokedOrchestrator = true ∧
    (checkAndLogin o parse true st).2.2.createdTabs = [] ∧
    (checkAndLogin o parse true st).2.2.closedTabs = [] ∧
    (checkAndLogin o parse true st).2.1.backoffSeconds =
      backoffOnFailure st.backoffSeconds
        (getCount st.failedAttemptsByOrigin (originOf parse (some cfg.loginUrl)) + 1) ∧
    getCount (checkAndLogin o parse true st).2.1.failedAttemptsByOrigin
      (originOf parse (some cfg.loginUrl)) = 0 := by
  rw [checkAndLogin_proceeds o parse true st cfg hcfg hurl (by simp) (by simp)]
  obtain ⟨h1, h2, h3, h4, h5, h6, h7, h8⟩ :=
    body_failure o true (originOf parse (some cfg.loginUrl))
      (markInFlight st (originOf parse (some cfg.loginUrl)))
      ⟨false, some "already_up", none⟩ (by simp) hq
      (by rw [orch_guard_up _ _ hup]) rfl
  refine ⟨?_, h4, ?_, h5, ?_, ?_⟩
  · rw [h1, hfin]
    rfl
  · rw [h6, orch_guard_up _ _ hup]
  · simpa [clearInFlight, markInFlight] using h2
  · simpa [clearInFlight, markInFlight, hfin] using h3

/-- C3 amended, instance: forced trigger with all probes 204 over a
fresh state. -/
theorem forced_up_treated_success_c3_witness :
    (checkAndLogin oracleAllUp parseFix true stBase).1 = true ∧
    (checkAndLogin oracleAllUp parseFix true stBase).2.2.createdTabs = ([] : List Nat) := by
  have h := forced_up_treated_success_c3 oracleAllUp parseFix stBase cfgA rfl
    (by decide) rfl rfl rfl
  exact ⟨h.1, h.2.2.1⟩

/- ### C4: orchestrator failure followed by a positive re-check -/

/-- C4 counterexample: the orchestrator creates probe tab 7, injection
fails, and the final re-check reports the internet up.  The call returns
success, but contrary to the claim the just-escalated `backoffSeconds`
stays at 2 instead of being reset to 0, and the engine-created session 7
is not closed (it stays in the registry). -/
theorem failure_recovery_c4_cex :
    (checkAndLogin oracleFailThenUp parseFix false stBase).1 = true ∧
    (checkAndLogin oracleFailThenUp parseFix false stBase).2.1.backoffSeconds = 2 ∧
    (checkAndLogin oracleFailThenUp parseFix false stBase).2.2.createdTabs = [7] ∧
    (checkAndLogin oracleFailThenUp parseFix false stBase).2.2.closedTabs = [] ∧
    (checkAndLogin oracleFailThenUp parseFix false stBase).2.1.createdTabIds = [7] :=
  ⟨rfl, rfl, rfl, rfl, rfl⟩

/-- C4 amended: when the orchestrator fails but the final re-check
reports the internet up, the scheduler resets this origin's
`failedAttempts` to 0, emits the success notification subject to the
3-minute per-origin rate limit, clears the in-flight mark, and returns
success — but it leaves `backoffSeconds` at the value the failure just
escalated it to (it is not reset to 0), and it closes no session on this
path (an engine-created tab stays registered for a later cycle). -/
theorem failure_recovery_partial_success_c4 (o : Oracle) (parse : String → Option String)
    (force : Bool) (st : WorkerState) (cfg : Cfg) (sr : SubmitRes)
    (hcfg : st.cachedConfig = some cfg) (hurl : cfg.loginUrl ≠ "")
    (hinit : (!force && o.netUpInitial) = false)
    (hguard : (st.inFlightOrigins.contains (originOf parse (some cfg.loginUrl)) && !force)
      = false)
    (hwait : (!force && o.netUpAfterWait) = false)
    (hq : o.keepaliveQuery = Except.ok none)
    (horch : (openPortalTabAndSubmit o
        (markInFlight st (originOf parse (some cfg.loginUrl)))).res = Except.ok sr)
    (hok : sr.ok = false) (hfin : o.netUpFinal = true) :
    (checkAndLogin o parse force st).1 = true ∧
    (checkAndLogin o parse force st).2.1.backoffSeconds =
      backoffOnFailure st.backoffSeconds
        (getCount st.failedAttemptsByOrigin (originOf parse (some cfg.loginUrl)) + 1) ∧
    getCount (checkAndLogin o parse force st).2.1.failedAttemptsByOrigin
      (originOf parse (some cfg.loginUrl)) = 0 ∧
    (checkAndLogin o parse force st).2.2.closedTabs = [] ∧
    (checkAndLogin o parse force st).2.2.notifiedSuccess =
      decide (180000 < o.nowMs -
        getCount st.lastSuccessNotifiedAt (originOf parse (some cfg.loginUrl))) ∧
    originOf parse (some cfg.loginUrl) ∉ (checkAndLogin o parse force st).2.1.inFlightOrigins := by
  rw [checkAndLogin_proceeds o parse force st cfg hcfg hurl hinit hguard]
  obtain ⟨h1, h2, h3, h4, h5, h6, h7, h8⟩ :=
    body_failure o force (originOf parse (some cfg.loginUrl))
      (markInFlight st (originOf parse (some cfg.loginUrl))) sr hwait hq horch hok
  refine ⟨?_, ?_, ?_, h5, ?_, ?_⟩
  · rw [h1, hfin]
    rfl
  · simpa [clearInFlight, markInFlight] using h2
  · simpa [clearInFlight, markInFlight, hfin] using h3
  · simpa [markInFlight, hfin] using h7
  · simp only [clearInFlight]
    rw [h8]
    exact not_mem_setDelStr _ _

/-- C4 amended, instance: the concrete failing-then-recovered run. -/
theorem failure_recovery_partial_success_c4_witness :
    (checkAndLogin oracleFailThenUp parseFix false stBase).1 = true ∧
    (checkAndLogin oracleFailThenUp parseFix false stBase).2.2.closedTabs = ([] : List Nat) := by
  have h := failure_recovery_partial_success_c4 oracleFailThenUp parseFix false stBase cfgA
    ⟨false, some "fields_not_found_in_all_frames", some 7⟩ rfl (by decide) (by decide)
    (by decide) (by decide) rfl rfl rfl rfl
  exact ⟨h.1, h.2.2.2.1⟩

/- ### C7: the created-session registry invariant -/

/-- C7: across every invocation, (a) every tab the scheduler closes was
either already in `createdTabIds` when the call started or was created
by the engine during this call — the engine never closes a browsing
context it did not create; (b) the registry after the call contains only
such tabs, so it only ever holds engine-created tabs; and (c) when an
existing portal tab is found and reused, nothing is closed and nothing
is created. -/
theorem created_tabs_invariant_c7 (o : Oracle) (parse : String → Option String) (force : Bool)
    (st : WorkerState) :
    (∀ t, t ∈ (checkAndLogin o parse force st).2.2.closedTabs →
      t ∈ st.createdTabIds ∨ t ∈ (checkAndLogin o parse force st).2.2.createdTabs) ∧
    (∀ t, t ∈ (checkAndLogin o parse force st).2.1.createdTabIds →
      t ∈ st.createdTabIds ∨ t ∈ (checkAndLogin o parse force st).2.2.createdTabs) ∧
    (∀ t, o.portalQuery1 = Except.ok (some t) →
      (checkAndLogin o parse force st).2.2.closedTabs = [] ∧
      (checkAndLogin o parse force st).2.2.createdTabs = []) := by
  unfold checkAndLogin
  split
  · exact ⟨fun t ht => by simp [noEffects] at ht, fun t ht => Or.inl ht,
      fun t _ => ⟨rfl, rfl⟩⟩
  · split
    · exact ⟨fun t ht => by simp [noEffects] at ht, fun t ht => Or.inl ht,
        fun t _ => ⟨rfl, rfl⟩⟩
    · rename_i cfg hcfgeq
      split
      · exact ⟨fun t ht => by simp [noEffects] at ht, fun t ht => Or.inl ht,
          fun t _ => ⟨rfl, rfl⟩⟩
      · dsimp only
        split
        · exact ⟨fun t ht => by simp [noEffects] at ht, fun t ht => Or.inl ht,
            fun t _ => ⟨rfl, rfl⟩⟩
        · obtain ⟨bt1, bt2⟩ := body_tabs o force (originOf parse (some cfg.loginUrl))
            (markInFlight st (originOf parse (some cfg.loginUrl)))
          refine ⟨?_, ?_, ?_⟩
          · intro t ht
            simpa [markInFlight] using bt1 t ht
          · intro t ht
            have ht' : t ∈ (checkAndLoginBody o force (originOf parse (some cfg.loginUrl))
                (markInFlight st (originOf parse (some cfg.loginUrl)))).st.createdTabIds := by
              simpa [clearInFlight] using ht
            simpa [markInFlight] using bt2 t ht'
          · intro t hq1
            exact body_reuse o force (originOf parse (some cfg.loginUrl))
              (markInFlight st (originOf parse (some cfg.loginUrl))) t hq1

/-- C7 instance: a fully successful attempt that reuses the pre-existing
portal tab 42 closes nothing and creates nothing. -/
theorem created_tabs_invariant_c7_witness :
    (checkAndLogin oracleReuse parseFix false stBase).2.2.closedTabs = [] ∧
    (checkAndLogin oracleReuse parseFix false stBase).2.2.createdTabs = [] :=
  (created_tabs_invariant_c7 oracleReuse parseFix false stBase).2.2 42 rfl

/- ### C8: backoff state is not per origin -/

/-- C8 counterexample: after one failed attempt for portal A (which never
touched portal B's failure counter), a fresh attempt for portal B must
wait 2 s before proceeding — A's failure changed the backoff delay
applied to B, because `backoffSeconds` is one global variable, not a
per-origin record. -/
theorem global_backoff_c8_cex :
    getCount (checkAndLogin oracleAllDown parseFix false stBase).2.1.failedAttemptsByOrigin
      "http://portal-b.example" = 0 ∧
    (checkAndLogin oracleAllDown parseFix false
      { (checkAndLogin oracleAllDown parseFix false stBase).2.1 with
          cachedConfig := some cfgB }).2.2.sleptBackoffSeconds = some 2 :=
  ⟨rfl, rfl⟩

/-- C8 amended: only `failedAttempts` (and the notification throttle) are
kept per origin; `backoffSeconds` is a single global value shared by all
origins.  Concretely: an attempt never changes the failure counter of
any other origin, but the pre-attempt backoff wait is determined by the
global `backoffSeconds` alone — two states differing only in which
origin is configured wait exactly the same. -/
theorem backoff_shared_global_c8 (o : Oracle) (parse : String → Option String) (force : Bool)
    (st : WorkerState) (cfg cfg' : Cfg)
    (hcfg : st.cachedConfig = some cfg) (hurl : cfg.loginUrl ≠ "") (hurl' : cfg'.loginUrl ≠ "")
    (hinit : (!force && o.netUpInitial) = false)
    (hguard : (st.inFlightOrigins.contains (originOf parse (some cfg.loginUrl)) && !force)
      = false)
    (hguard' : (st.inFlightOrigins.contains (originOf parse (some cfg'.loginUrl)) && !force)
      = false) :
    (checkAndLogin o parse force st).2.2.sleptBackoffSeconds =
      (checkAndLogin o parse force
        { st with cachedConfig := some cfg' }).2.2.sleptBackoffSeconds ∧
    (∀ k, k ≠ originOf parse (some cfg.loginUrl) →
      getCount (checkAndLogin o parse force st).2.1.failedAttemptsByOrigin k =
        getCount st.failedAttemptsByOrigin k) := by
  constructor
  · rw [checkAndLogin_proceeds o parse force st cfg hcfg hurl hinit hguard,
      checkAndLogin_proceeds o parse force { st with cachedConfig := some cfg' } cfg' rfl
        hurl' hinit hguard']
    have h1 := body_slept o force (originOf parse (some cfg.loginUrl))
      (markInFlight st (originOf parse (some cfg.loginUrl)))
    have h2 := body_slept o force (originOf parse (some cfg'.loginUrl))
      (markInFlight { st with cachedConfig := some cfg' }
        (originOf parse (some cfg'.loginUrl)))
    rw [h1, h2]
    simp [markInFlight]
  · intro k hk
    rw [checkAndLogin_proceeds o parse force st cfg hcfg hurl hinit hguard]
    have h := body_attempts_frame o force (originOf parse (some cfg.loginUrl))
      (markInFlight st (originOf parse (some cfg.loginUrl))) k hk
    simpa [clearInFlight, markInFlight] using h

/-- C8 amended, instance: with backoff 4, the wait is 4 s whether portal
A or portal B is configured, and an attempt for A leaves B's failure
counter untouched. -/
theorem backoff_shared_global_c8_witness :
    (checkAndLogin oracleAllDown parseFix false
      { stBase with backoffSeconds := 4 }).2.2.sleptBackoffSeconds =
      (checkAndLogin oracleAllDown parseFix false
        { { stBase with backoffSeconds := 4 } with
            cachedConfig := some cfgB }).2.2.sleptBackoffSeconds ∧
    getCount (checkAndLogin oracleAllDown parseFix false
      { stBase with backoffSeconds := 4 }).2.1.failedAttemptsByOrigin
      "http://portal-b.example" = 0 := by
  have h := backoff_shared_global_c8 oracleAllDown parseFix false
    { stBase with backoffSeconds := 4 } cfgA cfgB rfl (by decide) (by decide)
    (by decide) (by decide) (by decide)
  refine ⟨h.1, ?_⟩
  have h2 := h.2 "http://portal-b.example" (by decide)
  simpa using h2

/- ### C10: totality of the origin key and malformed login URLs -/

/-- A deliberately malformed login URL. -/
def cfgBad : Cfg := ⟨"not a url"⟩

/-- Worker state configured with the malformed URL. -/
def stBad : WorkerState := ⟨some cfgBad, 0, none, 0, [], [], [], []⟩

/-- C10: `originOf` is total — it returns the parsed origin when the URL
parses, the raw input string when parsing throws, and `''` for an absent
input — and when the configured `loginUrl` is malformed the scheduler
still proceeds: the orchestrator is invoked and all per-origin
bookkeeping (failure counter, in-flight set) is keyed by the raw string. -/
theorem origin_key_total_c10 :
    (∀ (parse : String → Option String) (s oz : String), parse s = some oz →
      originOf parse (some s) = oz) ∧
    (∀ (parse : String → Option String) (s : String), parse s = none →
      originOf parse (some s) = s) ∧
    (∀ parse : String → Option String, originOf parse none = "") ∧
    (∀ (o : Oracle) (parse : String → Option String) (force : Bool) (st : WorkerState)
      (cfg : Cfg) (sr : SubmitRes),
      st.cachedConfig = some cfg → cfg.loginUrl ≠ "" →
      parse cfg.loginUrl = none →
      (!force && o.netUpInitial) = false →
      (st.inFlightOrigins.contains cfg.loginUrl && !force) = false →
      (!force && o.netUpAfterWait) = false →
      o.keepaliveQuery = Except.ok none →
      (openPortalTabAndSubmit o (markInFlight st cfg.loginUrl)).res = Except.ok sr →
      sr.ok = false → o.netUpFinal = false →
      (checkAndLogin o parse force st).1 = false ∧
      (checkAndLogin o parse force st).2.2.invokedOrchestrator = true ∧
      getCount (checkAndLogin o parse force st).2.1.failedAttemptsByOrigin cfg.loginUrl =
        getCount st.failedAttemptsByOrigin cfg.loginUrl + 1 ∧
      cfg.loginUrl ∉ (checkAndLogin o parse force st).2.1.inFlightOrigins) := by
  refine ⟨?_, ?_, ?_, ?_⟩
  · intro parse s oz h
    simp [originOf, h]
  · intro parse s h
    simp [originOf, h]
  · intro parse
    rfl
  · intro o parse force st cfg sr hcfg hurl hmal hinit hguard hwait hq horch hok hfin
    have hkey : originOf parse (some cfg.loginUrl) = cfg.loginUrl := by
      simp [originOf, hmal]
    rw [checkAndLogin_proceeds o parse force st cfg hcfg hurl hinit (by rw [hkey]; exact hguard)]
    rw [hkey]
    obtain ⟨h1, h2, h3, h4, h5, h6, h7, h8⟩ :=
      body_failure o force cfg.loginUrl (markInFlight st cfg.loginUrl) sr hwait hq horch hok
    refine ⟨?_, h4, ?_, ?_⟩
    · rw [h1, hfin]
      rfl
    · simpa [clearInFlight, markInFlight, hfin] using h3
    · simp only [clearInFlight]
      rw [h8]
      exact not_mem_setDelStr _ _

/-- C10 instance: the fixture parser on both a parsing and a
non-parsing URL, and a full run over the malformed configuration that
still proceeds to the orchestrator, keyed by the raw string. -/
theorem origin_key_total_c10_witness :
    originOf parseFix (some "http://portal-a.example/login") = "http://portal-a.example" ∧
    originOf parseFix (some "not a url") = "not a url" ∧
    originOf parseFix none = "" ∧
    ((checkAndLogin oracleAllDown parseFix false stBad).1 = false ∧
      (checkAndLogin oracleAllDown parseFix false stBad).2.2.invokedOrchestrator = true ∧
      getCount (checkAndLogin oracleAllDown parseFix false stBad).2.1.failedAttemptsByOrigin
        "not a url" = 1 ∧
      "not a url" ∉ (checkAndLogin oracleAllDown parseFix false stBad).2.1.inFlightOrigins) := by
  refine ⟨origin_key_total_c10.1 parseFix _ _ (by decide),
    origin_key_total_c10.2.1 parseFix _ (by decide),
    origin_key_total_c10.2.2.1 parseFix, ?_⟩
  have h := origin_key_total_c10.2.2.2 oracleAllDown parseFix false stBad cfgBad
    ⟨false, some "fields_not_found_in_all_frames", none⟩ rfl (by decide) (by decide)
    (by decide) (by decide) (by decide) rfl rfl rfl rfl
  exact ⟨h.1, h.2.1, by simpa using h.2.2.1, h.2.2.2⟩
